import Mathlib

/-!
Verification of the fraud-detection rule engine.

The repository has two surfaces sharing one rule design:
* `fraud_detection_api.py`: a scoring endpoint (`FraudDetector.create_rules`,
  `FraudDetector.check_fraud`, `check_transaction`);
* `fraud_detection_app.py`: a batch dashboard (`create_fraud_rules`,
  `evaluate_transactions`).

Python `datetime` values are modelled as whole seconds since
1970-01-01T00:00:00 (a Thursday), as signed integers; `timedelta.days` is
floor division by 86400, matching Python semantics. Python `float` amounts
are modelled as rationals. The evaluation-time clock `datetime.now()` is
passed explicitly as a `now` parameter, since the rule closures read it at
evaluation time.
-/

namespace FraudDetection

/-- A Python naive datetime, as whole seconds since 1970-01-01T00:00:00. -/
abbrev Datetime := Int

/-- Python `d.time()` reduced to seconds into the day, in `[0, 86400)`:
the time-of-day of a datetime. -/
def timeOfDay (d : Datetime) : Int := d % 86400

/-- Python `d.hour`: the hour component of the datetime, in `[0, 24)`. -/
def hourOf (d : Datetime) : Int := Int.fdiv (timeOfDay d) 3600

/-- Python `d.weekday()`: Monday = 0 .. Sunday = 6. The epoch day
1970-01-01 was a Thursday, so its weekday index is 3. -/
def weekdayOf (d : Datetime) : Int := (Int.fdiv d 86400 + 3) % 7

/-- Python `timedelta.days` of a difference of datetimes measured in
seconds: floor division by 86400 (Python floors, also for negative
differences). -/
def timedeltaDays (delta : Int) : Int := Int.fdiv delta 86400

/-- The `Transaction` pydantic model of `fraud_detection_api.py`
(lines 8-18). It declares TEN fields, the tenth being
`transaction_time_weekday : datetime`; every field is required. -/
structure Transaction where
  id : String
  amount : ℚ
  payment_channel : String
  device_type : String
  transaction_time : Datetime
  location : String
  high_value_tx_count : Int
  account_creation_date : Datetime
  is_verified : Bool
  transaction_time_weekday : Datetime
deriving DecidableEq, Repr

/-- `FraudRule` of `fraud_detection_api.py`: rule id, description, action
("review" or "reject") and a boolean condition over a transaction. -/
structure FraudRule where
  rule_id : String
  description : String
  action : String
  condition : Transaction → Bool

/-- `FraudRule.evaluate`: returns `(action, description)` when the
condition holds, else the Python `(None, None)`, modelled as `none`. -/
def FraudRule.evaluate (r : FraudRule) (t : Transaction) :
    Option (String × String) :=
  if r.condition t then some (r.action, r.description) else none

/-- `FraudDetector.create_rules` of `fraud_detection_api.py` (lines 36-101).
The R7 closure reads `datetime.now()` at evaluation time; that clock is the
explicit `now` parameter. -/
def create_rules (now : Datetime) : List FraudRule :=
  [ { rule_id := "R1", description := "High transaction amount",
      action := "review",
      condition := fun t => decide (t.amount > 500000) },
    { rule_id := "R2", description := "Web channel transaction",
      action := "reject",
      condition := fun t => decide (t.payment_channel = "web") },
    { rule_id := "R3", description := "Transaction from iOS device",
      action := "review",
      condition := fun t => decide (t.device_type = "iOS") },
    { rule_id := "R4", description := "Late-night transaction",
      action := "review",
      condition := fun t =>
        decide (23 * 3600 ≤ timeOfDay t.transaction_time ∨
          timeOfDay t.transaction_time ≤ 5 * 3600) },
    { rule_id := "R5", description := "Transaction from Lagos, Nigeria",
      action := "reject",
      condition := fun t => decide (t.location = "Lagos, Nigeria") },
    { rule_id := "R6", description := "Frequent high-value transactions",
      action := "review",
      condition := fun t => decide (t.high_value_tx_count > 5) },
    { rule_id := "R7", description := "Account created recently",
      action := "review",
      condition := fun t =>
        decide (timedeltaDays (now - t.account_creation_date) ≤ 30) },
    { rule_id := "R8", description := "Unverified account",
      action := "reject",
      condition := fun t => !t.is_verified },
    { rule_id := "R9", description := "Transaction during restricted period",
      action := "reject",
      condition := fun t => decide (weekdayOf t.transaction_time ≥ 6) } ]

/-- One `{"action": ..., "reason": ...}` entry of the match list. -/
structure Detail where
  action : String
  reason : String
deriving DecidableEq, Repr

/-- `FraudDetector.check_fraud` (lines 103-109): loops over the rules in
order, appending a detail for every rule whose evaluation returns an
action (the Python `if action:`; every configured action is a non-empty
string, hence truthy). -/
def check_fraud (now : Datetime) (t : Transaction) : List Detail :=
  (create_rules now).foldl
    (fun actions rule =>
      match rule.evaluate t with
      | some (action, description) => actions ++ [⟨action, description⟩]
      | none => actions)
    []

/-- The JSON value bound to the `details` key of the endpoint response:
either a bare string or a list of detail objects. -/
inductive DetailsValue where
  | msg : String → DetailsValue
  | list : List Detail → DetailsValue
deriving DecidableEq, Repr

/-- The response object of the `/check_transaction/` endpoint. -/
structure Response where
  transaction_id : String
  status : String
  details : DetailsValue
deriving DecidableEq, Repr

/-- `check_transaction` of `fraud_detection_api.py` (lines 114-119): when
no rule matched, the Python code returns the STRING
`"No fraud detected"` as `details`, not an empty list. -/
def check_transaction (now : Datetime) (t : Transaction) : Response :=
  if check_fraud now t = [] then
    { transaction_id := t.id, status := "clear",
      details := DetailsValue.msg "No fraud detected" }
  else
    { transaction_id := t.id, status := "flagged",
      details := DetailsValue.list (check_fraud now t) }

/-- The `Transaction` pydantic model of `fraud_detection_app.py`
(lines 15-25): same ten required fields, but `transaction_time_weekday`
is a string there (a caller-supplied weekday name). -/
structure AppTransaction where
  id : String
  amount : ℚ
  payment_channel : String
  device_type : String
  transaction_time : Datetime
  location : String
  high_value_tx_count : Int
  account_creation_date : Datetime
  is_verified : Bool
  transaction_time_weekday : String
deriving DecidableEq, Repr

/-- `FraudRule` of `fraud_detection_app.py`. -/
structure AppRule where
  rule_id : String
  description : String
  action : String
  condition : AppTransaction → Bool

/-- `FraudRule.evaluate` of `fraud_detection_app.py`. -/
def AppRule.evaluate (r : AppRule) (t : AppTransaction) :
    Option (String × String) :=
  if r.condition t then some (r.action, r.description) else none

/-- `create_fraud_rules` of `fraud_detection_app.py` (lines 41-52). Note
R4 there tests the HOUR (`hour < 5 or hour >= 23`) and R9 tests the
caller-supplied weekday STRING against Saturday / Sunday. -/
def create_fraud_rules (now : Datetime) : List AppRule :=
  [ { rule_id := "R1", description := "High transaction amount",
      action := "review",
      condition := fun t => decide (t.amount > 500000) },
    { rule_id := "R2", description := "Web channel transaction",
      action := "reject",
      condition := fun t => decide (t.payment_channel = "web") },
    { rule_id := "R3", description := "Transaction from iOS device",
      action := "review",
      condition := fun t => decide (t.device_type = "iOS") },
    { rule_id := "R4", description := "Late-night transaction",
      action := "review",
      condition := fun t =>
        decide (hourOf t.transaction_time < 5 ∨
          hourOf t.transaction_time ≥ 23) },
    { rule_id := "R5", description := "Transaction from Lagos, Nigeria",
      action := "reject",
      condition := fun t => decide (t.location = "Lagos, Nigeria") },
    { rule_id := "R6", description := "Frequent high-value transactions",
      action := "review",
      condition := fun t => decide (t.high_value_tx_count > 5) },
    { rule_id := "R7", description := "Account created recently",
      action := "review",
      condition := fun t =>
        decide (timedeltaDays (now - t.account_creation_date) ≤ 30) },
    { rule_id := "R8", description := "Unverified account",
      action := "reject",
      condition := fun t => !t.is_verified },
    { rule_id := "R9", description := "Transaction on weekend",
      action := "reject",
      condition := fun t =>
        decide (t.transaction_time_weekday ∈ ["Saturday", "Sunday"]) } ]

/-- One row of the dashboard result list built by `evaluate_transactions`. -/
structure AppResult where
  id : String
  status : String
  details : List Detail
  weekday : String
  location : String
deriving DecidableEq, Repr

/-- `evaluate_transactions` of `fraud_detection_app.py` (lines 83-99): for
each transaction, loop over all rules collecting matches, derive the
status, and append a result row. -/
def evaluate_transactions (transactions : List AppTransaction)
    (rules : List AppRule) : List AppResult :=
  transactions.foldl
    (fun results tx =>
      let tx_results := rules.foldl
        (fun acc rule =>
          match rule.evaluate tx with
          | some (action, description) => acc ++ [⟨action, description⟩]
          | none => acc)
        []
      results ++
        [ { id := tx.id,
            status := if tx_results = [] then "clear" else "flagged",
            details := tx_results,
            weekday := tx.transaction_time_weekday,
            location := tx.location } ])
    []

/-- Raw input to the API `Transaction` model: each declared field either
present or absent (`none`). Type errors are out of scope; presence is what
the required-field check of pydantic validates. -/
structure RawTransaction where
  id : Option String
  amount : Option ℚ
  payment_channel : Option String
  device_type : Option String
  transaction_time : Option Datetime
  location : Option String
  high_value_tx_count : Option Int
  account_creation_date : Option Datetime
  is_verified : Option Bool
  transaction_time_weekday : Option Datetime

/-- Pydantic required-field check for one field: absent fields are a
validation error naming the field; no field of either model has a
default. -/
def requireField {α : Type} (field : String) : Option α → Except String α
  | some a => Except.ok a
  | none => Except.error ("field required: " ++ field)

/-- Validation of the API `Transaction` model (pydantic `BaseModel` with
ten declared fields, none optional, none defaulted): succeeds exactly when
every declared field is present. -/
def validateTransaction (raw : RawTransaction) : Except String Transaction := do
  let id ← requireField "id" raw.id
  let amount ← requireField "amount" raw.amount
  let payment_channel ← requireField "payment_channel" raw.payment_channel
  let device_type ← requireField "device_type" raw.device_type
  let transaction_time ← requireField "transaction_time" raw.transaction_time
  let location ← requireField "location" raw.location
  let high_value_tx_count ←
    requireField "high_value_tx_count" raw.high_value_tx_count
  let account_creation_date ←
    requireField "account_creation_date" raw.account_creation_date
  let is_verified ← requireField "is_verified" raw.is_verified
  let transaction_time_weekday ←
    requireField "transaction_time_weekday" raw.transaction_time_weekday
  return { id, amount, payment_channel, device_type, transaction_time,
           location, high_value_tx_count, account_creation_date,
           is_verified, transaction_time_weekday }

/-- Raw input to the dashboard `Transaction` model; there the tenth field
is a string column. -/
structure AppRawTransaction where
  id : Option String
  amount : Option ℚ
  payment_channel : Option String
  device_type : Option String
  transaction_time : Option Datetime
  location : Option String
  high_value_tx_count : Option Int
  account_creation_date : Option Datetime
  is_verified : Option Bool
  transaction_time_weekday : Option String

/-- Validation of the dashboard `Transaction` model: same ten required
fields, the tenth a string. -/
def validateAppTransaction (raw : AppRawTransaction) :
    Except String AppTransaction := do
  let id ← requireField "id" raw.id
  let amount ← requireField "amount" raw.amount
  let payment_channel ← requireField "payment_channel" raw.payment_channel
  let device_type ← requireField "device_type" raw.device_type
  let transaction_time ← requireField "transaction_time" raw.transaction_time
  let location ← requireField "location" raw.location
  let high_value_tx_count ←
    requireField "high_value_tx_count" raw.high_value_tx_count
  let account_creation_date ←
    requireField "account_creation_date" raw.account_creation_date
  let is_verified ← requireField "is_verified" raw.is_verified
  let transaction_time_weekday ←
    requireField "transaction_time_weekday" raw.transaction_time_weekday
  return { id, amount, payment_channel, device_type, transaction_time,
           location, high_value_tx_count, account_creation_date,
           is_verified, transaction_time_weekday }

/-- Whether an `Except` result is a success. -/
def exceptOk {ε α : Type} : Except ε α → Bool
  | Except.ok _ => true
  | Except.error _ => false

/-! ## Helper lemmas: the collecting loops as `filterMap` -/

/-- The detail contributed by a rule to the match list, when its condition
holds. -/
def apiMatch (t : Transaction) (r : FraudRule) : Option Detail :=
  if r.condition t then some ⟨r.action, r.description⟩ else none

/-- The collecting loop of `check_fraud` is `filterMap` over the rules. -/
theorem api_collect (t : Transaction) :
    ∀ (rules : List FraudRule) (acc : List Detail),
      rules.foldl
        (fun actions rule =>
          match rule.evaluate t with
          | some (action, description) => actions ++ [⟨action, description⟩]
          | none => actions)
        acc = acc ++ rules.filterMap (apiMatch t) := by
  intro rules
  induction rules with
  | nil => intro acc; simp
  | cons r rs ih =>
      intro acc
      simp only [List.foldl_cons]
      have he : (match r.evaluate t with
          | some (action, description) =>
              acc ++ [(⟨action, description⟩ : Detail)]
          | none => acc) = acc ++ (apiMatch t r).toList := by
        by_cases h : r.condition t = true <;>
          simp [FraudRule.evaluate, apiMatch, h]
      rw [he, ih, List.filterMap_cons]
      cases h : apiMatch t r <;> simp

/-- `check_fraud` characterized: the matches of the nine rules, in rule
definition order. -/
theorem check_fraud_eq (now : Int) (t : Transaction) :
    check_fraud now t = (create_rules now).filterMap (apiMatch t) := by
  simpa [check_fraud] using api_collect t (create_rules now) []

/-- `check_fraud` depends only on the fields the rules read, and on the
clock only through the decided R7 outcome. -/
theorem check_fraud_congr {now1 now2 : Int} {t1 t2 : Transaction}
    (h1 : t1.amount = t2.amount)
    (h2 : t1.payment_channel = t2.payment_channel)
    (h3 : t1.device_type = t2.device_type)
    (h4 : t1.transaction_time = t2.transaction_time)
    (h5 : t1.location = t2.location)
    (h6 : t1.high_value_tx_count = t2.high_value_tx_count)
    (h7 : decide (timedeltaDays (now1 - t1.account_creation_date) ≤ 30)
        = decide (timedeltaDays (now2 - t2.account_creation_date) ≤ 30))
    (h8 : t1.is_verified = t2.is_verified) :
    check_fraud now1 t1 = check_fraud now2 t2 := by
  rw [check_fraud_eq, check_fraud_eq]
  simp only [create_rules, List.filterMap_cons, List.filterMap_nil, apiMatch]
  rw [h1, h2, h3, h4, h5, h6, h7, h8]

/-- The detail contributed by a dashboard rule when its condition holds. -/
def appMatch (t : AppTransaction) (r : AppRule) : Option Detail :=
  if r.condition t then some ⟨r.action, r.description⟩ else none

/-- The inner collecting loop of `evaluate_transactions` is `filterMap`
over the rules. -/
theorem app_collect (t : AppTransaction) :
    ∀ (rules : List AppRule) (acc : List Detail),
      rules.foldl
        (fun acc rule =>
          match rule.evaluate t with
          | some (action, description) => acc ++ [⟨action, description⟩]
          | none => acc)
        acc = acc ++ rules.filterMap (appMatch t) := by
  intro rules
  induction rules with
  | nil => intro acc; simp
  | cons r rs ih =>
      intro acc
      simp only [List.foldl_cons]
      have he : (match r.evaluate t with
          | some (action, description) =>
              acc ++ [(⟨action, description⟩ : Detail)]
          | none => acc) = acc ++ (appMatch t r).toList := by
        by_cases h : r.condition t = true <;>
          simp [AppRule.evaluate, appMatch, h]
      rw [he, ih, List.filterMap_cons]
      cases h : appMatch t r <;> simp

/-- The dashboard result row for one transaction, in closed form. -/
def appRow (rules : List AppRule) (tx : AppTransaction) : AppResult :=
  { id := tx.id,
    status := if rules.filterMap (appMatch tx) = [] then "clear"
      else "flagged",
    details := rules.filterMap (appMatch tx),
    weekday := tx.transaction_time_weekday,
    location := tx.location }

/-- `evaluate_transactions` characterized: one row per transaction, in
input order, each row holding the matches of the rules in rule order. -/
theorem evaluate_transactions_eq :
    ∀ (txs : List AppTransaction) (rules : List AppRule),
      evaluate_transactions txs rules = txs.map (appRow rules) := by
  have hgen : ∀ (rules : List AppRule) (txs : List AppTransaction)
      (acc : List AppResult),
      txs.foldl
        (fun results tx =>
          let tx_results := rules.foldl
            (fun acc rule =>
              match rule.evaluate tx with
              | some (action, description) => acc ++ [⟨action, description⟩]
              | none => acc)
            []
          results ++
            [ { id := tx.id,
                status := if tx_results = [] then "clear" else "flagged",
                details := tx_results,
                weekday := tx.transaction_time_weekday,
                location := tx.location } ])
        acc = acc ++ txs.map (appRow rules) := by
    intro rules txs
    induction txs with
    | nil => intro acc; simp
    | cons tx txs ih =>
        intro acc
        simp only [List.foldl_cons]
        rw [app_collect tx rules, List.nil_append, ih, List.map_cons]
        simp [appRow]
  intro txs rules
  simpa [evaluate_transactions] using hgen rules txs []

/-! ## Individual rules, extracted from the rule lists -/

/-- The rule list of the API detector has nine rules. -/
theorem create_rules_length (now : Int) : (create_rules now).length = 9 := rfl

/-- The rule list of the dashboard has nine rules. -/
theorem create_fraud_rules_length (now : Int) :
    (create_fraud_rules now).length = 9 := rfl

/-- Rule R4 of the API detector, at index 3 of the rule list. -/
theorem create_rules_get3 (now : Int) :
    (create_rules now).get ⟨3, by simp [create_rules]⟩
      = ⟨"R4", "Late-night transaction", "review",
          fun t => decide (23 * 3600 ≤ timeOfDay t.transaction_time ∨
            timeOfDay t.transaction_time ≤ 5 * 3600)⟩ := rfl

/-- Rule R9 of the API detector, at index 8 of the rule list. -/
theorem create_rules_get8 (now : Int) :
    (create_rules now).get ⟨8, by simp [create_rules]⟩
      = ⟨"R9", "Transaction during restricted period", "reject",
          fun t => decide (weekdayOf t.transaction_time ≥ 6)⟩ := rfl

/-- Rule R4 of the dashboard, at index 3 of the rule list. -/
theorem create_fraud_rules_get3 (now : Int) :
    (create_fraud_rules now).get ⟨3, by simp [create_fraud_rules]⟩
      = ⟨"R4", "Late-night transaction", "review",
          fun t => decide (hourOf t.transaction_time < 5 ∨
            hourOf t.transaction_time ≥ 23)⟩ := rfl

/-- Rule R9 of the dashboard, at index 8 of the rule list. -/
theorem create_fraud_rules_get8 (now : Int) :
    (create_fraud_rules now).get ⟨8, by simp [create_fraud_rules]⟩
      = ⟨"R9", "Transaction on weekend", "reject",
          fun t =>
            decide (t.transaction_time_weekday ∈ ["Saturday", "Sunday"])⟩ :=
  rfl

/-- The weekday index is never negative. -/
theorem weekdayOf_nonneg (d : Int) : 0 ≤ weekdayOf d := by
  have h := Int.emod_nonneg (Int.fdiv d 86400 + 3)
    (by norm_num : (7 : Int) ≠ 0)
  simpa [weekdayOf] using h

/-- The weekday index is below seven. -/
theorem weekdayOf_lt_seven (d : Int) : weekdayOf d < 7 := by
  have h := Int.emod_lt_of_pos (Int.fdiv d 86400 + 3)
    (by norm_num : (0 : Int) < 7)
  simpa [weekdayOf] using h

/-- A detail produced by `apiMatch` copies the action and description of
its rule. -/
theorem apiMatch_some {t : Transaction} {r : FraudRule} {d : Detail}
    (h : apiMatch t r = some d) : d = ⟨r.action, r.description⟩ := by
  unfold apiMatch at h
  split at h
  · exact (Option.some.inj h).symm
  · exact absurd h (by simp)

/-- Every configured API rule carries one of the two actions. -/
theorem create_rules_action {now : Int} {r : FraudRule}
    (hr : r ∈ create_rules now) :
    r.action = "review" ∨ r.action = "reject" := by
  simp only [create_rules, List.mem_cons, List.not_mem_nil, or_false] at hr
  rcases hr with h | h | h | h | h | h | h | h | h <;> subst h <;> simp

/-- The match list is exactly one entry per matching rule. -/
theorem check_fraud_length (now : Int) (t : Transaction) :
    (check_fraud now t).length
      = ((create_rules now).filter (fun r => r.condition t)).length := by
  rw [check_fraud_eq]
  have h : ∀ rules : List FraudRule,
      (rules.filterMap (apiMatch t)).length
        = (rules.filter (fun r => r.condition t)).length := by
    intro rules
    induction rules with
    | nil => simp
    | cons r rs ih =>
        by_cases h : r.condition t = true <;>
          simp [apiMatch, List.filterMap_cons, List.filter_cons, h, ih]
  exact h (create_rules now)

/-! ## Concrete fixtures -/

/-- 2024-11-12T23:30:00, a Tuesday: day 20039 since the epoch. -/
def tueLateTime : Int := 20039 * 86400 + 84600

/-- 2024-11-13T12:00:00, a Wednesday: day 20040 since the epoch. -/
def wedNoon : Int := 20040 * 86400 + 43200

/-- 2024-11-16T12:00:00, a Saturday: day 20043 since the epoch. -/
def satNoon : Int := 20043 * 86400 + 43200

/-- The spec §8 flagged scenario: amount 600000, web channel, Android,
2024-11-12T23:30:00, Lagos, one prior high-value transaction, account
created exactly 40 days before `now`, verified. The tenth (unused by the
API rules) field is an arbitrary `wd`. -/
def scenarioTx (now wd : Int) : Transaction :=
  { id := "TXN001", amount := 600000, payment_channel := "web",
    device_type := "Android", transaction_time := tueLateTime,
    location := "Lagos, Nigeria", high_value_tx_count := 1,
    account_creation_date := now - 40 * 86400, is_verified := true,
    transaction_time_weekday := wd }

/-- The spec §8 clear scenario: benign in every rule when evaluated at
`wedNoon`: account created 731 days earlier. -/
def clearTx : Transaction :=
  { id := "TXN002", amount := 100, payment_channel := "atm",
    device_type := "Android", transaction_time := wedNoon,
    location := "Accra, Ghana", high_value_tx_count := 0,
    account_creation_date := wedNoon - 731 * 86400, is_verified := true,
    transaction_time_weekday := 0 }

/-- A transaction on a Saturday, benign in every other rule when
evaluated at `satNoon`. -/
def saturdayTx : Transaction :=
  { id := "TXN003", amount := 100, payment_channel := "atm",
    device_type := "Android", transaction_time := satNoon,
    location := "Accra, Ghana", high_value_tx_count := 0,
    account_creation_date := satNoon - 731 * 86400, is_verified := true,
    transaction_time_weekday := 0 }

/-- An API transaction at exactly 05:00:00 (1970-01-01T05:00:00). -/
def apiFiveAmTx : Transaction :=
  { id := "TXN004", amount := 100, payment_channel := "atm",
    device_type := "Android", transaction_time := 5 * 3600,
    location := "Accra, Ghana", high_value_tx_count := 0,
    account_creation_date := 0, is_verified := true,
    transaction_time_weekday := 0 }

/-- An API transaction at exactly 23:00:00 (1970-01-01T23:00:00). -/
def apiElevenPmTx : Transaction :=
  { id := "TXN005", amount := 100, payment_channel := "atm",
    device_type := "Android", transaction_time := 23 * 3600,
    location := "Accra, Ghana", high_value_tx_count := 0,
    account_creation_date := 0, is_verified := true,
    transaction_time_weekday := 0 }

/-- A dashboard transaction at exactly 05:00:00; 1970-01-01 was a
Thursday. -/
def appFiveAmTx : AppTransaction :=
  { id := "TXN006", amount := 100, payment_channel := "atm",
    device_type := "Android", transaction_time := 5 * 3600,
    location := "Accra, Ghana", high_value_tx_count := 0,
    account_creation_date := 0, is_verified := true,
    transaction_time_weekday := "Thursday" }

/-- A transaction whose account creation date lies one second in the
future of the evaluation time 0. -/
def futureTx : Transaction :=
  { id := "TXN007", amount := 100, payment_channel := "atm",
    device_type := "Android", transaction_time := wedNoon,
    location := "Accra, Ghana", high_value_tx_count := 0,
    account_creation_date := 1, is_verified := true,
    transaction_time_weekday := 0 }

/-- A raw request carrying exactly the nine §3 fields and nothing else:
`transaction_time_weekday` is absent. -/
def nineFieldRaw : RawTransaction :=
  { id := some "TXN001", amount := some 100, payment_channel := some "web",
    device_type := some "Android", transaction_time := some 0,
    location := some "Lagos, Nigeria", high_value_tx_count := some 1,
    account_creation_date := some 0, is_verified := some true,
    transaction_time_weekday := none }

/-! ## Claims -/

/-- C1, counterexample: a Saturday transaction (Python weekday index 5),
benign in every other rule, trips neither R9 of the API detector (its
condition is `weekday() >= 6`, i.e. Sunday only) nor any other rule: it
comes out clear, while the claim requires a reject match. -/
theorem c1_weekend_counterexample :
    weekdayOf saturdayTx.transaction_time = 5 ∧
    ((create_rules 0).get ⟨8, by decide⟩).rule_id = "R9" ∧
    ((create_rules 0).get ⟨8, by decide⟩).condition saturdayTx = false ∧
    check_fraud satNoon saturdayTx = [] ∧
    (check_transaction satNoon saturdayTx).status = "clear" := by decide

/-- C1, amended: R9 of the API detector has action "reject" and matches
iff the day-of-week of transaction_time is Sunday (Python weekday index
6); R9 of the dashboard has action "reject" and matches iff the
caller-supplied transaction_time_weekday string is "Saturday" or
"Sunday". -/
theorem c1_r9_sunday_only :
    ∀ (now : Int) (t : Transaction) (u : AppTransaction),
      ((create_rules now).get ⟨8, by simp [create_rules]⟩).action
        = "reject" ∧
      (((create_rules now).get ⟨8, by simp [create_rules]⟩).condition t
          = true ↔ weekdayOf t.transaction_time = 6) ∧
      ((create_fraud_rules now).get
          ⟨8, by simp [create_fraud_rules]⟩).action = "reject" ∧
      (((create_fraud_rules now).get
          ⟨8, by simp [create_fraud_rules]⟩).condition u = true ↔
        (u.transaction_time_weekday = "Saturday" ∨
          u.transaction_time_weekday = "Sunday")) := by
  intro now t u
  refine ⟨rfl, ?_, rfl, ?_⟩
  · show decide (weekdayOf t.transaction_time ≥ 6) = true
      ↔ weekdayOf t.transaction_time = 6
    rw [decide_eq_true_eq]
    have h1 := weekdayOf_nonneg t.transaction_time
    have h2 := weekdayOf_lt_seven t.transaction_time
    omega
  · show decide (u.transaction_time_weekday ∈ ["Saturday", "Sunday"]) = true
      ↔ (u.transaction_time_weekday = "Saturday" ∨
          u.transaction_time_weekday = "Sunday")
    rw [decide_eq_true_eq]
    simp

/-- C2, counterexample: a request supplying exactly the nine §3 fields,
each well-typed, is rejected by validation: the model declares a tenth
required field, transaction_time_weekday. -/
theorem c2_nine_fields_counterexample :
    validateTransaction nineFieldRaw
      = Except.error "field required: transaction_time_weekday" ∧
    exceptOk (validateTransaction nineFieldRaw) = false :=
  ⟨rfl, rfl⟩

/-- C2, amended: both Transaction models declare TEN mandatory fields,
the nine of §3 plus transaction_time_weekday (a timestamp in the API
model, a string in the dashboard model); validation succeeds iff all ten
are present, and in that case yields the transaction with exactly those
field values. -/
theorem c2_ten_fields_required :
    (∀ (id : String) (amount : ℚ) (pc dt : String) (tt : Int)
        (loc : String) (hv : Int) (acd : Int) (iv : Bool) (wd : Int),
        validateTransaction
          ⟨some id, some amount, some pc, some dt, some tt, some loc,
            some hv, some acd, some iv, some wd⟩
          = Except.ok ⟨id, amount, pc, dt, tt, loc, hv, acd, iv, wd⟩) ∧
    (∀ raw : RawTransaction,
        exceptOk (validateTransaction raw)
          = (raw.id.isSome && raw.amount.isSome
            && raw.payment_channel.isSome && raw.device_type.isSome
            && raw.transaction_time.isSome && raw.location.isSome
            && raw.high_value_tx_count.isSome
            && raw.account_creation_date.isSome && raw.is_verified.isSome
            && raw.transaction_time_weekday.isSome)) ∧
    (∀ raw : AppRawTransaction,
        exceptOk (validateAppTransaction raw)
          = (raw.id.isSome && raw.amount.isSome
            && raw.payment_channel.isSome && raw.device_type.isSome
            && raw.transaction_time.isSome && raw.location.isSome
            && raw.high_value_tx_count.isSome
            && raw.account_creation_date.isSome && raw.is_verified.isSome
            && raw.transaction_time_weekday.isSome)) := by
  refine ⟨fun _ _ _ _ _ _ _ _ _ _ => rfl, ?_, ?_⟩
  · intro raw
    obtain ⟨f1, f2, f3, f4, f5, f6, f7, f8, f9, f10⟩ := raw
    cases f1 <;> cases f2 <;> cases f3 <;> cases f4 <;> cases f5 <;>
      cases f6 <;> cases f7 <;> cases f8 <;> cases f9 <;> cases f10 <;> rfl
  · intro raw
    obtain ⟨f1, f2, f3, f4, f5, f6, f7, f8, f9, f10⟩ := raw
    cases f1 <;> cases f2 <;> cases f3 <;> cases f4 <;> cases f5 <;>
      cases f6 <;> cases f7 <;> cases f8 <;> cases f9 <;> cases f10 <;> rfl

/-- C3, counterexample: the spec §8 clear scenario transaction matches no
rule, and the endpoint response binds `details` to the STRING
"No fraud detected", which is not the empty list the claim requires. -/
theorem c3_clear_details_counterexample :
    check_fraud wedNoon clearTx = [] ∧
    check_transaction wedNoon clearTx
      = ⟨"TXN002", "clear", DetailsValue.msg "No fraud detected"⟩ ∧
    DetailsValue.msg "No fraud detected" ≠ DetailsValue.list [] := by
  decide

/-- C3, amended: for a Transaction matching no rule the endpoint response
is transaction_id, status "clear" and details bound to the string
"No fraud detected" (not an empty list); in the flagged case details is
the list of action and reason pairs. -/
theorem c3_response_shape :
    ∀ (now : Int) (t : Transaction),
      (check_fraud now t = [] →
        check_transaction now t
          = ⟨t.id, "clear", DetailsValue.msg "No fraud detected"⟩) ∧
      (check_fraud now t ≠ [] →
        check_transaction now t
          = ⟨t.id, "flagged", DetailsValue.list (check_fraud now t)⟩) := by
  intro now t
  constructor <;> intro h <;> simp [check_transaction, h]

/-- C3, witness for the amended theorem at the clear fixture and at the
flagged scenario fixture. -/
theorem c3_response_shape_witness :
    check_transaction wedNoon clearTx
      = ⟨clearTx.id, "clear", DetailsValue.msg "No fraud detected"⟩ ∧
    check_transaction 0 (scenarioTx 0 0)
      = ⟨(scenarioTx 0 0).id, "flagged",
          DetailsValue.list (check_fraud 0 (scenarioTx 0 0))⟩ :=
  ⟨(c3_response_shape wedNoon clearTx).1 (by decide),
   (c3_response_shape 0 (scenarioTx 0 0)).2 (by decide)⟩

/-- C4, counterexample: at exactly 05:00:00 the DASHBOARD rule R4
(`hour < 5 or hour >= 23`) does not match, while the claim requires the
05:00:00 bound to be inclusive. -/
theorem c4_fiveam_counterexample :
    timeOfDay appFiveAmTx.transaction_time = 5 * 3600 ∧
    ((create_fraud_rules 0).get ⟨3, by decide⟩).rule_id = "R4" ∧
    ((create_fraud_rules 0).get ⟨3, by decide⟩).condition appFiveAmTx
      = false := by
  decide

/-- C4, amended: R4 of the API detector matches iff time-of-day is at
least 23:00:00 or at most 05:00:00, both bounds inclusive, so exactly
05:00:00 and exactly 23:00:00 both match there; R4 of the dashboard
matches iff the hour is below 5 or at least 23, so exactly 05:00:00 does
NOT match there. -/
theorem c4_late_night_bounds :
    ∀ (now : Int) (t : Transaction) (u : AppTransaction),
      (((create_rules now).get ⟨3, by simp [create_rules]⟩).condition t
          = true ↔
        (23 * 3600 ≤ timeOfDay t.transaction_time ∨
          timeOfDay t.transaction_time ≤ 5 * 3600)) ∧
      ((create_rules now).get
          ⟨3, by simp [create_rules]⟩).condition apiFiveAmTx = true ∧
      ((create_rules now).get
          ⟨3, by simp [create_rules]⟩).condition apiElevenPmTx = true ∧
      (((create_fraud_rules now).get
          ⟨3, by simp [create_fraud_rules]⟩).condition u = true ↔
        (hourOf u.transaction_time < 5 ∨
          23 ≤ hourOf u.transaction_time)) ∧
      ((create_fraud_rules now).get
          ⟨3, by simp [create_fraud_rules]⟩).condition appFiveAmTx
        = false := by
  intro now t u
  refine ⟨?_, rfl, rfl, ?_, rfl⟩
  · show decide (23 * 3600 ≤ timeOfDay t.transaction_time ∨
        timeOfDay t.transaction_time ≤ 5 * 3600) = true ↔ _
    rw [decide_eq_true_eq]
  · show decide (hourOf u.transaction_time < 5 ∨
        hourOf u.transaction_time ≥ 23) = true ↔ _
    rw [decide_eq_true_eq]

/-- C5: on both surfaces the derived status is "clear" exactly when the
match sequence is empty, and "flagged" exactly when it is not: every
dashboard row's status equals "clear" when its details are empty and
equals "flagged" when they are not. -/
theorem c5_status_iff_empty :
    (∀ (now : Int) (t : Transaction),
      ((check_transaction now t).status = "clear" ↔
        check_fraud now t = []) ∧
      ((check_transaction now t).status = "flagged" ↔
        check_fraud now t ≠ [])) ∧
    (∀ (txs : List AppTransaction) (rules : List AppRule),
      (evaluate_transactions txs rules).all
        (fun row => row.status ==
          (if row.details.isEmpty then "clear" else "flagged"))
        = true) := by
  constructor
  · intro now t
    by_cases h : check_fraud now t = [] <;> simp [check_transaction, h]
  · intro txs rules
    rw [evaluate_transactions_eq, List.all_eq_true]
    intro row hrow
    rw [List.mem_map] at hrow
    obtain ⟨tx, _, rfl⟩ := hrow
    by_cases h : rules.filterMap (appMatch tx) = [] <;> simp [appRow, h]

/-- C6: the evaluator is exactly a filter of the rule list in definition
order, with one match entry per matching rule (so no rule is skipped
after a reject match, and the output order is the rule order); the
dashboard evaluator produces one row per transaction with the same
property for an arbitrary rule set. -/
theorem c6_order_no_short_circuit :
    (∀ (now : Int) (t : Transaction),
      check_fraud now t = (create_rules now).filterMap (apiMatch t) ∧
      (check_fraud now t).length
        = ((create_rules now).filter (fun r => r.condition t)).length) ∧
    (∀ (txs : List AppTransaction) (rules : List AppRule),
      evaluate_transactions txs rules = txs.map (appRow rules)) :=
  ⟨fun now t => ⟨check_fraud_eq now t, check_fraud_length now t⟩,
    evaluate_transactions_eq⟩

/-- C7: the spec §8 flagged scenario (Tuesday 23:30, amount 600000, web,
Lagos, account 40 whole days old, verified) matches exactly R1, R2, R4,
R5 in that order and is flagged, for every evaluation time and every
value of the unused weekday field. -/
theorem c7_flagged_scenario :
    ∀ (now wd : Int),
      weekdayOf (scenarioTx now wd).transaction_time = 1 ∧
      timedeltaDays (now - (scenarioTx now wd).account_creation_date)
        = 40 ∧
      check_fraud now (scenarioTx now wd)
        = [⟨"review", "High transaction amount"⟩,
           ⟨"reject", "Web channel transaction"⟩,
           ⟨"review", "Late-night transaction"⟩,
           ⟨"reject", "Transaction from Lagos, Nigeria"⟩] ∧
      (check_transaction now (scenarioTx now wd)).status = "flagged" := by
  intro now wd
  have e1 : now - (scenarioTx now wd).account_creation_date
      = (3456000 : Int) := by
    show now - (now - 40 * 86400) = (3456000 : Int)
    omega
  have hcf : check_fraud now (scenarioTx now wd)
      = check_fraud 0 (scenarioTx 0 0) := by
    apply check_fraud_congr <;> try rfl
    rw [e1]
    decide
  have hlist : check_fraud 0 (scenarioTx 0 0)
      = [⟨"review", "High transaction amount"⟩,
         ⟨"reject", "Web channel transaction"⟩,
         ⟨"review", "Late-night transaction"⟩,
         ⟨"reject", "Transaction from Lagos, Nigeria"⟩] := by decide
  refine ⟨by show weekdayOf tueLateTime = 1; decide,
    by rw [e1]; decide, by rw [hcf, hlist], ?_⟩
  have h2 : check_fraud now (scenarioTx now wd) ≠ [] := by
    rw [hcf, hlist]; simp
  simp [check_transaction, h2]

/-- C8: evaluation of any Transaction at any time totally computes a
match list of at most nine entries, each carrying one of the two
configured actions; being a total Lean function, the embedded evaluator
cannot raise. -/
theorem c8_evaluation_total :
    ∀ (now : Int) (t : Transaction),
      (check_fraud now t).length ≤ 9 ∧
      (check_fraud now t).all
        (fun d => d.action == "review" || d.action == "reject") = true := by
  intro now t
  constructor
  · rw [check_fraud_eq]
    simpa using List.length_filterMap_le (apiMatch t) (create_rules now)
  · rw [check_fraud_eq, List.all_eq_true]
    intro d hd
    obtain ⟨r, hr, hm⟩ := List.mem_filterMap.mp hd
    rcases create_rules_action hr with h | h <;>
      simp [apiMatch_some hm, h]

/-- C9: evaluation is a function of the Transaction and the fixed clock
only; two evaluations whose clocks decide R7 the same way (in particular
two evaluations at the same fixed now) give identical match lists and
identical responses. -/
theorem c9_fixed_now_deterministic :
    ∀ (t : Transaction) (now1 now2 : Int),
      (timedeltaDays (now1 - t.account_creation_date) ≤ 30 ↔
        timedeltaDays (now2 - t.account_creation_date) ≤ 30) →
      check_fraud now1 t = check_fraud now2 t ∧
      check_transaction now1 t = check_transaction now2 t := by
  intro t now1 now2 h
  have hcf : check_fraud now1 t = check_fraud now2 t :=
    check_fraud_congr rfl rfl rfl rfl rfl rfl (decide_eq_decide.mpr h) rfl
  exact ⟨hcf, by simp [check_transaction, hcf]⟩

/-- C9, witness: the clear fixture evaluated at time 0 and one day later,
both inside the R7 window. -/
theorem c9_fixed_now_deterministic_witness :
    check_fraud 0 clearTx = check_fraud 86400 clearTx ∧
    check_transaction 0 clearTx = check_transaction 86400 clearTx :=
  c9_fixed_now_deterministic clearTx 0 86400 (by decide)

/-- C10: when the account creation date lies in the future of the
evaluation time, the signed whole-day difference is negative, hence at
most 30, and R7 contributes its review match. -/
theorem c10_future_account_matches_r7 :
    ∀ (now : Int) (t : Transaction),
      now < t.account_creation_date →
      timedeltaDays (now - t.account_creation_date) < 0 ∧
      (⟨"review", "Account created recently"⟩ : Detail) ∈
        check_fraud now t := by
  intro now t h
  have hneg : timedeltaDays (now - t.account_creation_date) < 0 := by
    unfold timedeltaDays
    rw [Int.fdiv_eq_ediv _ (by norm_num)]
    omega
  refine ⟨hneg, ?_⟩
  rw [check_fraud_eq]
  apply List.mem_filterMap.mpr
  refine ⟨⟨"R7", "Account created recently", "review",
      fun t => decide (timedeltaDays (now - t.account_creation_date) ≤ 30)⟩,
    ?_, ?_⟩
  · exact List.mem_cons_of_mem _ (List.mem_cons_of_mem _
      (List.mem_cons_of_mem _ (List.mem_cons_of_mem _
        (List.mem_cons_of_mem _ (List.mem_cons_of_mem _
          (List.mem_cons_self _ _))))))
  · have hle : timedeltaDays (now - t.account_creation_date) ≤ 30 := by
      omega
    simp [apiMatch, hle]

/-- C10, witness: account created one second after the evaluation time
0. -/
theorem c10_future_account_witness :
    (0 : Int) < futureTx.account_creation_date ∧
    (timedeltaDays (0 - futureTx.account_creation_date) < 0 ∧
      (⟨"review", "Account created recently"⟩ : Detail) ∈
        check_fraud 0 futureTx) :=
  ⟨by decide, c10_future_account_matches_r7 0 futureTx (by decide)⟩

end FraudDetection
